import Mathlib

/-
Verification of the mcp-database repository: a shallow embedding of the
database-abstraction layer (three dialect connectors, the connector
factory, and the MCP request handlers) together with theorems settling
the specification claims.

Modelling conventions:
- Each connector method is embedded as a pure Lean function over an
  explicit backend-state structure, returning a pair of the Go result
  (fallible results become `Except`) and the list of driver-level events
  the method emits (`beginTx`, `exec`, `commit`).  The event list mirrors
  the order of `BeginTxx` / `QueryContext` / `GetContext` / deferred
  `Commit` calls in the Go source, including deferred commits that run on
  error paths.
- Catalog queries (information_schema, sqlite_master, pragmas) are
  interpreted against structured state fields; raw SQL sent through
  `Query` is interpreted by an association list from SQL text to result
  rows, with absent entries modelling backend query failure.
- Go `nil` slices for optional sample data become `Option`; machine
  integers become `Int` (no overflow is relevant to any claim).
-/

/-- Dynamically-typed scalar produced by the row materializer (types.go
rows are `map[string]any`; the claims only need a closed set of scalars). -/
inductive SqlValue
  | null
  | int (i : Int)
  | str (s : String)
  | bool (b : Bool)
deriving DecidableEq

/-- One materialized result row: column name to scalar, in backend order. -/
abbrev Row := List (String × SqlValue)

/-- Embeds types.Column. -/
structure Column where
  name : String
  type : String
  nullable : Bool
deriving DecidableEq

/-- Embeds types.Table. -/
structure Table where
  name : String
  columns : List Column
deriving DecidableEq

/-- Embeds types.Index. -/
structure Index where
  name : String
  columns : List String
  unique : Bool
deriving DecidableEq

/-- Embeds types.TableDescription; `sampleData` is `none` when the Go
code leaves the `SampleData` slice nil after a failed sample fetch. -/
structure TableDescription where
  name : String
  columns : List Column
  rowCount : Int
  sampleData : Option (List Row)
  primaryKeys : List String
  indexes : List Index
deriving DecidableEq

/-- Error kinds surfaced by the embedded layer (the Go code returns
wrapped `error` values; only the kind and the offending string matter to
the claims). -/
inductive DBError
  | notFound (table : String)
  | queryFailed (sql : String)
  | unsupportedDialect (tag : String)
deriving DecidableEq

/-- Driver-level events emitted by a connector method: `beginTx` records
the `sql.TxOptions.ReadOnly` flag passed to `BeginTxx`, `exec` records
the SQL text and bound arguments sent to the backend, `commit` records a
(possibly deferred) `tx.Commit()`. -/
inductive DBEvent
  | beginTx (readOnly : Bool)
  | exec (sql : String) (args : List String)
  | commit
deriving DecidableEq

/-- True exactly on `exec` events. -/
def isExecEvent : DBEvent → Bool
  | .exec _ _ => true
  | _ => false

/-- Trace scanner: walking the event list with a stack of open
transactions' read-only flags, checks that every `exec` happens while
the innermost open transaction was begun with the read-only flag set. -/
def execsReadOnlyAux : List Bool → List DBEvent → Bool
  | _, [] => true
  | stack, .beginTx ro :: rest => execsReadOnlyAux (ro :: stack) rest
  | stack, .commit :: rest => execsReadOnlyAux stack.tail rest
  | stack, .exec _ _ :: rest => stack.headD false && execsReadOnlyAux stack rest

/-- Every backend read in the trace executes inside a transaction begun
with the driver-level read-only flag set. -/
def execsInReadOnlyTx (tr : List DBEvent) : Bool :=
  execsReadOnlyAux [] tr

/-- Number of transactions begun during the trace. -/
def beginTxCount (tr : List DBEvent) : Nat :=
  (tr.filter (fun e => match e with | .beginTx _ => true | _ => false)).length

/-- A trace whose reads all happen inside the single transaction opened
at the start of the call: it opens exactly one transaction. -/
def singleTxTrace (tr : List DBEvent) : Bool :=
  beginTxCount tr == 1

/-- The double-quote character, written by code point to keep SQL text
readable. -/
def quoteChar : Char := Char.ofNat 34

/-- Embeds Go strings.Trim(s, quote): removes all leading and trailing
double-quote characters. -/
def trimQuotes (s : String) : String :=
  String.mk (((s.toList.dropWhile (fun c => c = quoteChar)).reverse.dropWhile
    (fun c => c = quoteChar)).reverse)

/-- The dot character, written by code point for uniformity with the
quote character. -/
def dotChar : Char := Char.ofNat 46

/-- Worker for splitDot: accumulates the current part in reverse. -/
def splitDotAux : List Char → List Char → List String
  | [], acc => [String.mk acc.reverse]
  | c :: cs, acc =>
    if c = dotChar then String.mk acc.reverse :: splitDotAux cs []
    else splitDotAux cs (c :: acc)

/-- Embeds Go strings.Split(s, dot): the dot-separated parts of s, with
an empty input yielding one empty part. -/
def splitDot (s : String) : List String :=
  splitDotAux s.toList []

/-- Embeds the table-name parsing inlined at the start of
PostgresConnector.DescribeTable (postgres.go lines 203-212): split on
dots; with exactly two parts, strip surrounding quotes from each part
and use them as schema and table; otherwise resolve against the public
schema after stripping surrounding quotes from the whole name. -/
def parseTableName (table : String) : String × String :=
  match splitDot table with
  | [s, t] => (trimQuotes s, trimQuotes t)
  | _ => ("public", trimQuotes table)

/-- One base table as exposed by the backend catalog: its schema, name,
columns in ordinal order, row count, primary-key columns in key order,
and non-primary indexes. -/
structure PgTableInfo where
  schema : String
  name : String
  columns : List Column
  rowCount : Int
  primaryKeys : List String
  indexes : List Index
deriving DecidableEq

/-- Backend state seen by the Postgres connector.  `tables` models the
rows of information_schema.tables restricted to table_type = BASE TABLE;
in Postgres this catalog view also exposes the base tables of the system
schemas pg_catalog and information_schema, so states whose `tables` list
contains such entries are reachable.  `rawResults` interprets raw SQL
sent through Query: an absent entry models a backend query failure. -/
structure PgState where
  tables : List PgTableInfo
  rawResults : List (String × List Row)
deriving DecidableEq

/-- SQL text of the all-tables enumeration in PostgresConnector.Scan
(whitespace normalized). -/
def pgScanAllSQL : String :=
  "SELECT table_name, table_schema FROM information_schema.tables WHERE table_type = \x27BASE TABLE\x27"

/-- Numbered positional placeholders $1,...,$n joined by commas, as built
by the loop in PostgresConnector.Scan. -/
def pgPlaceholders (n : Nat) : String :=
  String.intercalate (",") ((List.range n).map (fun i => "$" ++ toString (i + 1)))

/-- SQL text of the filtered enumeration in PostgresConnector.Scan for n
requested tables (whitespace normalized). -/
def pgScanInSQL (n : Nat) : String :=
  pgScanAllSQL ++ " AND table_name IN (" ++ pgPlaceholders n ++ ")"

/-- SQL text of PostgresConnector.loadColumns (whitespace normalized). -/
def pgColumnsSQL : String :=
  "SELECT column_name, data_type, is_nullable FROM information_schema.columns WHERE table_name = $1 AND table_schema = $2 ORDER BY ordinal_position"

/-- SQL text of the existence check in PostgresConnector.DescribeTable
(whitespace normalized). -/
def pgExistsSQL : String :=
  "SELECT EXISTS (SELECT 1 FROM information_schema.tables WHERE table_schema = $1 AND table_name = $2)"

/-- Row-count SQL built in PostgresConnector.DescribeTable. -/
def pgCountSQL (schema name : String) : String :=
  "SELECT COUNT(*) FROM \x22" ++ schema ++ "\x22.\x22" ++ name ++ "\x22"

/-- SQL text of the primary-key discovery query in
PostgresConnector.DescribeTable (whitespace normalized). -/
def pgPkSQL : String :=
  "SELECT a.attname FROM pg_index i JOIN pg_attribute a ON a.attrelid = i.indrelid AND a.attnum = ANY(i.indkey) JOIN pg_class c ON c.oid = i.indrelid JOIN pg_namespace n ON n.oid = c.relnamespace WHERE i.indisprimary AND n.nspname = $1 AND c.relname = $2 ORDER BY array_position(i.indkey, a.attnum)"

/-- SQL text of the index discovery query in
PostgresConnector.DescribeTable (whitespace normalized). -/
def pgIdxSQL : String :=
  "SELECT i.relname as index_name, array_agg(a.attname ORDER BY array_position(idx.indkey, a.attnum)) as columns, idx.indisunique as is_unique FROM pg_index idx JOIN pg_class i ON i.oid = idx.indexrelid JOIN pg_class c ON c.oid = idx.indrelid JOIN pg_namespace n ON n.oid = c.relnamespace JOIN pg_attribute a ON a.attrelid = idx.indrelid AND a.attnum = ANY(idx.indkey) WHERE n.nspname = $1 AND c.relname = $2 AND NOT idx.indisprimary GROUP BY i.relname, idx.indisunique"

/-- The SQL string built by Sample in the Postgres and SQLite connectors:
fmt.Sprintf of SELECT * FROM table LIMIT limit. -/
def sampleSQL (table : String) (l : Int) : String :=
  "SELECT * FROM " ++ table ++ " LIMIT " ++ toString l

/-- Fully-qualified table name rendered by PostgresConnector.Scan:
fmt.Sprintf of quoted schema dot quoted name. -/
def pgQualifiedName (schema name : String) : String :=
  "\x22" ++ schema ++ "\x22.\x22" ++ name ++ "\x22"

/-- Catalog lookup used by the existence check of
PostgresConnector.DescribeTable: the first catalog entry matching both
schema and name. -/
def pgFindTable (st : PgState) (schema name : String) : Option PgTableInfo :=
  st.tables.find? (fun t => t.schema == schema && t.name == name)

/-- Catalog rows returned by the enumeration query of
PostgresConnector.Scan: the IN filter restricts by table name only (no
schema filter in either branch of the Go code). -/
def pgScanSelected (st : PgState) (tablesList : List String) : List PgTableInfo :=
  if tablesList.length > 0 then
    st.tables.filter (fun t => tablesList.contains t.name)
  else
    st.tables

/-- Embeds PostgresConnector.Scan: begins a read-only transaction,
enumerates base tables (optionally filtered by name via parameterized
placeholders), loads each table's columns inside the same transaction,
and renders each name as quoted schema dot quoted name. -/
def pgScan (st : PgState) (tablesList : List String) :
    Except DBError (List Table) × List DBEvent :=
  let sql := if tablesList.length > 0 then pgScanInSQL tablesList.length else pgScanAllSQL
  let found := pgScanSelected st tablesList
  (.ok (found.map (fun t => { name := pgQualifiedName t.schema t.name, columns := t.columns })),
   [DBEvent.beginTx true, DBEvent.exec sql tablesList]
     ++ found.map (fun t => DBEvent.exec pgColumnsSQL [t.name, t.schema])
     ++ [DBEvent.commit])

/-- Outcome of a raw SQL string sent to the backend inside Query. -/
def pgRawEval (st : PgState) (sql : String) : Except DBError (List Row) :=
  match st.rawResults.lookup sql with
  | some rows => .ok rows
  | none => .error (.queryFailed sql)

/-- Embeds PostgresConnector.Query: begins a read-only transaction,
passes the caller-supplied SQL text to the backend verbatim with no
bound arguments, materializes the rows, and commits (the deferred commit
also runs on the error path). -/
def pgQuery (st : PgState) (sqlQuery : String) :
    Except DBError (List Row) × List DBEvent :=
  (pgRawEval st sqlQuery,
   [DBEvent.beginTx true, DBEvent.exec sqlQuery [], DBEvent.commit])

/-- Embeds PostgresConnector.Sample: replaces a non-positive limit by 10,
builds the SELECT-LIMIT string, and delegates to Query. -/
def pgSample (st : PgState) (table : String) (limit : Int) :
    Except DBError (List Row) × List DBEvent :=
  let l := if limit ≤ 0 then 10 else limit
  pgQuery st (sampleSQL table l)

/-- Embeds PostgresConnector.DescribeTable: parses the name, checks
existence, then loads columns, row count, a best-effort 5-row sample
(delegated to Sample, hence to Query, which begins its own transaction),
primary keys and indexes, in that order; a failed sample degrades to an
absent sample.  Catalog reads on an existing table succeed in this
model; the fallible backend read is the raw sample query. -/
def pgDescribeTable (st : PgState) (table : String) :
    Except DBError TableDescription × List DBEvent :=
  let p := parseTableName table
  match pgFindTable st p.1 p.2 with
  | none =>
    (.error (.notFound table),
     [DBEvent.beginTx true, DBEvent.exec pgExistsSQL [p.1, p.2], DBEvent.commit])
  | some info =>
    let sample := pgSample st table 5
    let sampleData : Option (List Row) :=
      match sample.1 with
      | .ok rows => some rows
      | .error _ => none
    (.ok { name := table, columns := info.columns, rowCount := info.rowCount,
           sampleData := sampleData, primaryKeys := info.primaryKeys,
           indexes := info.indexes },
     [DBEvent.beginTx true, DBEvent.exec pgExistsSQL [p.1, p.2],
      DBEvent.exec pgColumnsSQL [p.2, p.1],
      DBEvent.exec (pgCountSQL p.1 p.2) []]
       ++ sample.2
       ++ [DBEvent.exec pgPkSQL [p.1, p.2], DBEvent.exec pgIdxSQL [p.1, p.2],
           DBEvent.commit])

/-- One base table as exposed to the MySQL connector through
information_schema: schema (database), name, columns in ordinal order,
row count, primary keys in ordinal position, and non-primary indexes
(index columns are aggregated by GROUP_CONCAT and split on commas by the
Go code; the model stores the resulting column list directly, which
round-trips whenever column names contain no comma). -/
structure MyTableInfo where
  schema : String
  name : String
  columns : List Column
  rowCount : Int
  primaryKeys : List String
  indexes : List Index
deriving DecidableEq

/-- Backend state seen by the MySQL connector: the current session
database selected by DATABASE(), the catalog of base tables across
schemas, and the raw-SQL interpretation used by Query. -/
structure MyState where
  currentDb : String
  tables : List MyTableInfo
  rawResults : List (String × List Row)
deriving DecidableEq

/-- SQL text of the all-tables enumeration in MySQLConnector.Scan
(whitespace normalized): unlike the Postgres variant it restricts to the
current database. -/
def myScanAllSQL : String :=
  "SELECT table_name, table_schema FROM information_schema.tables WHERE table_type = \x27BASE TABLE\x27 AND table_schema = DATABASE()"

/-- Unnumbered positional placeholders joined by commas, as built by the
loop in MySQLConnector.Scan. -/
def myPlaceholders (n : Nat) : String :=
  String.intercalate (",") ((List.range n).map (fun _ => "?"))

/-- SQL text of the filtered enumeration in MySQLConnector.Scan. -/
def myScanInSQL (n : Nat) : String :=
  myScanAllSQL ++ " AND table_name IN (" ++ myPlaceholders n ++ ")"

/-- SQL text of MySQLConnector.loadColumns (whitespace normalized). -/
def myColumnsSQL : String :=
  "SELECT column_name, data_type, is_nullable FROM information_schema.columns WHERE table_name = ? AND table_schema = ? ORDER BY ordinal_position"

/-- SQL text of the existence check in MySQLConnector.DescribeTable. -/
def myExistsSQL : String :=
  "SELECT EXISTS (SELECT 1 FROM information_schema.tables WHERE table_schema = DATABASE() AND table_name = ?)"

/-- SQL text of the current-database query in
MySQLConnector.DescribeTable. -/
def myDatabaseSQL : String := "SELECT DATABASE()"

/-- Row-count SQL built in MySQLConnector.DescribeTable (backtick-quoted
identifier). -/
def myCountSQL (name : String) : String :=
  "SELECT COUNT(*) FROM \x60" ++ name ++ "\x60"

/-- The SQL string built by MySQLConnector.Sample (backtick-quoted
identifier). -/
def mySampleSQL (table : String) (l : Int) : String :=
  "SELECT * FROM \x60" ++ table ++ "\x60 LIMIT " ++ toString l

/-- SQL text of the primary-key discovery query in
MySQLConnector.DescribeTable (whitespace normalized). -/
def myPkSQL : String :=
  "SELECT column_name FROM information_schema.key_column_usage WHERE table_schema = DATABASE() AND table_name = ? AND constraint_name = \x27PRIMARY\x27 ORDER BY ordinal_position"

/-- SQL text of the index discovery query in
MySQLConnector.DescribeTable (whitespace normalized). -/
def myIdxSQL : String :=
  "SELECT index_name, GROUP_CONCAT(column_name ORDER BY seq_in_index) as columns, NOT non_unique as is_unique FROM information_schema.statistics WHERE table_schema = DATABASE() AND table_name = ? AND index_name != \x27PRIMARY\x27 GROUP BY index_name, non_unique"

/-- Catalog lookup used by the existence check of
MySQLConnector.DescribeTable: the named table in the current database. -/
def myFindTable (st : MyState) (name : String) : Option MyTableInfo :=
  st.tables.find? (fun t => t.schema == st.currentDb && t.name == name)

/-- Catalog rows returned by the enumeration query of
MySQLConnector.Scan: both branches restrict to the current database; the
IN filter further restricts by table name. -/
def myScanSelected (st : MyState) (tablesList : List String) : List MyTableInfo :=
  if tablesList.length > 0 then
    st.tables.filter (fun t => t.schema == st.currentDb && tablesList.contains t.name)
  else
    st.tables.filter (fun t => t.schema == st.currentDb)

/-- Embeds MySQLConnector.Scan: begins a read-only transaction,
enumerates base tables of the current database, loads each table's
columns inside the same transaction, and returns bare table names. -/
def myScan (st : MyState) (tablesList : List String) :
    Except DBError (List Table) × List DBEvent :=
  let sql := if tablesList.length > 0 then myScanInSQL tablesList.length else myScanAllSQL
  let found := myScanSelected st tablesList
  (.ok (found.map (fun t => { name := t.name, columns := t.columns })),
   [DBEvent.beginTx true, DBEvent.exec sql tablesList]
     ++ found.map (fun t => DBEvent.exec myColumnsSQL [t.name, t.schema])
     ++ [DBEvent.commit])

/-- Outcome of a raw SQL string sent to the backend inside Query. -/
def myRawEval (st : MyState) (sql : String) : Except DBError (List Row) :=
  match st.rawResults.lookup sql with
  | some rows => .ok rows
  | none => .error (.queryFailed sql)

/-- Embeds MySQLConnector.Query: begins a read-only transaction, passes
the caller-supplied SQL verbatim with no bound arguments, and commits
(the deferred commit also runs on the error path). -/
def myQuery (st : MyState) (sqlQuery : String) :
    Except DBError (List Row) × List DBEvent :=
  (myRawEval st sqlQuery,
   [DBEvent.beginTx true, DBEvent.exec sqlQuery [], DBEvent.commit])

/-- Embeds MySQLConnector.Sample: replaces a non-positive limit by 10,
builds the backtick-quoted SELECT-LIMIT string, and delegates to
Query. -/
def mySample (st : MyState) (table : String) (limit : Int) :
    Except DBError (List Row) × List DBEvent :=
  let l := if limit ≤ 0 then 10 else limit
  myQuery st (mySampleSQL table l)

/-- Embeds MySQLConnector.DescribeTable: existence check, current
database name, columns, row count, best-effort 5-row sample (delegated
to Sample, hence to Query, which begins its own transaction), primary
keys and indexes, in that order; a failed sample degrades to an absent
sample.  Catalog reads on an existing table succeed in this model. -/
def myDescribeTable (st : MyState) (table : String) :
    Except DBError TableDescription × List DBEvent :=
  match myFindTable st table with
  | none =>
    (.error (.notFound table),
     [DBEvent.beginTx true, DBEvent.exec myExistsSQL [table], DBEvent.commit])
  | some info =>
    let sample := mySample st table 5
    let sampleData : Option (List Row) :=
      match sample.1 with
      | .ok rows => some rows
      | .error _ => none
    (.ok { name := table, columns := info.columns, rowCount := info.rowCount,
           sampleData := sampleData, primaryKeys := info.primaryKeys,
           indexes := info.indexes },
     [DBEvent.beginTx true, DBEvent.exec myExistsSQL [table],
      DBEvent.exec myDatabaseSQL [],
      DBEvent.exec myColumnsSQL [table, st.currentDb],
      DBEvent.exec (myCountSQL table) []]
       ++ sample.2
       ++ [DBEvent.exec myPkSQL [table], DBEvent.exec myIdxSQL [table],
           DBEvent.commit])

/-- One row of PRAGMA table_info for a SQLite table: column id order is
the list order; `notNull` and `pk` carry the raw integer flags (pk is
the 1-based position within the primary key, 0 when not part of it). -/
structure SqColumnInfo where
  name : String
  type : String
  notNull : Nat
  pk : Nat
deriving DecidableEq

/-- One row of pragma_index_list for a SQLite table, together with the
column names pragma_index_info reports for it in seqno order.  An empty
column list models both an unresolvable index_info query and an index
with zero resolved columns: the Go code omits the index in either
case. -/
structure SqIndexInfo where
  name : String
  unique : Bool
  origin : String
  columns : List String
deriving DecidableEq

/-- One row of sqlite_master: object name and type (table, index, ...),
plus the introspection data the pragmas expose for it. -/
structure SqTableEntry where
  name : String
  type : String
  columns : List SqColumnInfo
  rowCount : Int
  indexes : List SqIndexInfo
deriving DecidableEq

/-- Backend state seen by the SQLite connector: the sqlite_master
catalog (which does contain the sqlite_-prefixed internal objects) and
the raw-SQL interpretation used by Query. -/
structure SqState where
  master : List SqTableEntry
  rawResults : List (String × List Row)
deriving DecidableEq

/-- Backend semantics of the pattern NOT LIKE sqlite_percent used by
SQLiteConnector.Scan: LIKE is case-insensitive on ASCII, the underscore
matches exactly one character and the percent any suffix, so a name
matches when it has at least 7 characters and its first six fold to
sqlite. -/
def sqliteInternalName (name : String) : Bool :=
  decide (7 ≤ name.toList.length) &&
    ((name.toList.take 6).map Char.toLower == ("sqlite").toList)

/-- A name literally starting with the seven characters of the internal
sqlite prefix (the spec's notion of an internal-prefixed name). -/
def sqliteUnderscorePrefixed (name : String) : Bool :=
  name.toList.take 7 == ("sqlite_").toList

/-- SQL text of the all-tables enumeration in SQLiteConnector.Scan
(whitespace normalized). -/
def sqScanAllSQL : String :=
  "SELECT name FROM sqlite_master WHERE type=\x27table\x27 AND name NOT LIKE \x27sqlite_%\x27"

/-- SQL text of the filtered enumeration in SQLiteConnector.Scan; the
placeholders are the same unnumbered kind the MySQL connector builds. -/
def sqScanInSQL (n : Nat) : String :=
  sqScanAllSQL ++ " AND name IN (" ++ myPlaceholders n ++ ")"

/-- SQL text of SQLiteConnector.loadColumns: the table name is
interpolated directly into the PRAGMA by Sprintf. -/
def sqTableInfoSQL (name : String) : String :=
  "PRAGMA table_info(\x27" ++ name ++ "\x27)"

/-- SQL text of the existence check in SQLiteConnector.DescribeTable. -/
def sqExistsSQL : String :=
  "SELECT EXISTS (SELECT 1 FROM sqlite_master WHERE type=\x27table\x27 AND name = ?)"

/-- Row-count SQL built in SQLiteConnector.DescribeTable. -/
def sqCountSQL (name : String) : String :=
  "SELECT COUNT(*) FROM " ++ name

/-- SQL text of the primary-key discovery query in
SQLiteConnector.DescribeTable (whitespace normalized). -/
def sqPkSQL : String :=
  "SELECT name FROM pragma_table_info(?) WHERE pk > 0 ORDER BY pk"

/-- SQL text of the index-list query in SQLiteConnector.DescribeTable
(whitespace normalized). -/
def sqIdxListSQL : String :=
  "SELECT name, \x22unique\x22 FROM pragma_index_list(?) WHERE origin != \x27pk\x27"

/-- SQL text of the per-index column query in
SQLiteConnector.DescribeTable (whitespace normalized). -/
def sqIdxInfoSQL : String :=
  "SELECT name FROM pragma_index_info(?) ORDER BY seqno"

/-- Columns of a SQLite table as SQLiteConnector.loadColumns reports
them: a column is nullable exactly when its notnull flag is 0. -/
def sqLoadColumns (cols : List SqColumnInfo) : List Column :=
  cols.map (fun ci => { name := ci.name, type := ci.type, nullable := ci.notNull == 0 })

/-- Catalog lookup used by the existence check of
SQLiteConnector.DescribeTable: only the type filter applies, there is no
internal-prefix exclusion on this path. -/
def sqFindTable (st : SqState) (name : String) : Option SqTableEntry :=
  st.master.find? (fun t => t.type == "table" && t.name == name)

/-- Catalog rows returned by the enumeration query of
SQLiteConnector.Scan: type filter, internal-name exclusion, and the
optional IN filter. -/
def sqScanSelected (st : SqState) (tablesList : List String) : List SqTableEntry :=
  if tablesList.length > 0 then
    st.master.filter (fun t =>
      t.type == "table" && !sqliteInternalName t.name && tablesList.contains t.name)
  else
    st.master.filter (fun t => t.type == "table" && !sqliteInternalName t.name)

/-- Embeds SQLiteConnector.Scan: begins a read-only transaction,
enumerates non-internal tables (optionally filtered by name), loads each
table's columns via PRAGMA table_info inside the same transaction, and
returns bare table names. -/
def sqScan (st : SqState) (tablesList : List String) :
    Except DBError (List Table) × List DBEvent :=
  let sql := if tablesList.length > 0 then sqScanInSQL tablesList.length else sqScanAllSQL
  let found := sqScanSelected st tablesList
  (.ok (found.map (fun t => { name := t.name, columns := sqLoadColumns t.columns })),
   [DBEvent.beginTx true, DBEvent.exec sql tablesList]
     ++ found.map (fun t => DBEvent.exec (sqTableInfoSQL t.name) [])
     ++ [DBEvent.commit])

/-- Outcome of a raw SQL string sent to the backend inside Query. -/
def sqRawEval (st : SqState) (sql : String) : Except DBError (List Row) :=
  match st.rawResults.lookup sql with
  | some rows => .ok rows
  | none => .error (.queryFailed sql)

/-- Embeds SQLiteConnector.Query: begins a read-only transaction, passes
the caller-supplied SQL verbatim with no bound arguments, and commits
(the deferred commit also runs on the error path). -/
def sqQuery (st : SqState) (sqlQuery : String) :
    Except DBError (List Row) × List DBEvent :=
  (sqRawEval st sqlQuery,
   [DBEvent.beginTx true, DBEvent.exec sqlQuery [], DBEvent.commit])

/-- Embeds SQLiteConnector.Sample: replaces a non-positive limit by 10,
builds the SELECT-LIMIT string, and delegates to Query. -/
def sqSample (st : SqState) (table : String) (limit : Int) :
    Except DBError (List Row) × List DBEvent :=
  let l := if limit ≤ 0 then 10 else limit
  sqQuery st (sampleSQL table l)

/-- Insertion step for the stable sort by primary-key position. -/
def insertByPk (c : SqColumnInfo) : List SqColumnInfo → List SqColumnInfo
  | [] => [c]
  | d :: ds => if c.pk ≤ d.pk then c :: d :: ds else d :: insertByPk c ds

/-- Stable insertion sort by primary-key position, modelling the ORDER
BY pk of the primary-key discovery query. -/
def sortByPk : List SqColumnInfo → List SqColumnInfo
  | [] => []
  | c :: cs => insertByPk c (sortByPk cs)

/-- Primary-key column names of a SQLite table as the pragma query
reports them: key-flagged columns ordered by key position. -/
def sqPrimaryKeys (cols : List SqColumnInfo) : List String :=
  (sortByPk (cols.filter (fun c => 0 < c.pk))).map (fun c => c.name)

/-- Embeds SQLiteConnector.DescribeTable: existence check, columns, row
count, best-effort 5-row sample (delegated to Sample, hence to Query,
which begins its own transaction), primary keys, then per-index column
resolution with indexes whose columns cannot be resolved silently
omitted; a failed sample degrades to an absent sample. -/
def sqDescribeTable (st : SqState) (table : String) :
    Except DBError TableDescription × List DBEvent :=
  match sqFindTable st table with
  | none =>
    (.error (.notFound table),
     [DBEvent.beginTx true, DBEvent.exec sqExistsSQL [table], DBEvent.commit])
  | some entry =>
    let sample := sqSample st table 5
    let sampleData : Option (List Row) :=
      match sample.1 with
      | .ok rows => some rows
      | .error _ => none
    let idxList := entry.indexes.filter (fun i => i.origin != "pk")
    let indexes := (idxList.filter (fun i => 0 < i.columns.length)).map
      (fun i => { name := i.name, columns := i.columns, unique := i.unique : Index })
    (.ok { name := table, columns := sqLoadColumns entry.columns,
           rowCount := entry.rowCount, sampleData := sampleData,
           primaryKeys := sqPrimaryKeys entry.columns, indexes := indexes },
     [DBEvent.beginTx true, DBEvent.exec sqExistsSQL [table],
      DBEvent.exec (sqTableInfoSQL table) [],
      DBEvent.exec (sqCountSQL table) []]
       ++ sample.2
       ++ [DBEvent.exec sqPkSQL [table], DBEvent.exec sqIdxListSQL [table]]
       ++ idxList.map (fun i => DBEvent.exec sqIdxInfoSQL [i.name])
       ++ [DBEvent.commit])

/-- The three dialect connector implementations present in the
repository. -/
inductive ConnectorKind
  | postgres
  | mysql
  | sqlite
deriving DecidableEq

/-- Embeds databases.NewConnector (connector.go): pure dispatch on the
dialect tag.  In the source only the postgres and postgresql cases are
live; the mysql and sqlite cases are commented out, so those tags fall
through to the default unsupported-database-type error carrying the tag.
Construction side effects (dial and ping) are abstracted: an ok result
records which dialect constructor the factory invokes. -/
def newConnectorDispatch (dbType : String) : Except DBError ConnectorKind :=
  if dbType == "postgres" || dbType == "postgresql" then
    .ok ConnectorKind.postgres
  else
    .error (.unsupportedDialect dbType)

/-- Dynamically-typed request-argument value, modelling the Go `any`
values a decoded JSON arguments object holds. -/
inductive JVal
  | null
  | bool (b : Bool)
  | num (n : Int)
  | str (s : String)
  | arr (xs : List JVal)
  | obj (fields : List (String × JVal))

/-- Embeds mcp.CallToolRequest.RequireString: the named argument must be
present and a string, otherwise the handler answers with a missing-
parameter error. -/
def requireString (fields : List (String × JVal)) (key : String) : Except String String :=
  match fields.lookup key with
  | some (.str s) => .ok s
  | _ => .error ("required argument " ++ key ++ " not found")

/-- Embeds handlers.SampleHandler up to the connector call: it extracts
the table argument and always passes the literal limit 10 to
connector.Sample, never reading a limit argument from the request.  The
ok value is the (table, limit) pair handed to Sample. -/
def sampleHandlerCall (fields : List (String × JVal)) : Except String (String × Int) :=
  match requireString fields ("table") with
  | .error e => .error e
  | .ok table => .ok (table, 10)

/-- Embeds the filter construction of handlers.ScanHandler: the tables
argument contributes only when the arguments decode to an object whose
tables entry is an array, and only its string elements are kept; every
other shape leaves the filter empty. -/
def scanHandlerTables (arguments : JVal) : List String :=
  match arguments with
  | .obj fields =>
    match fields.lookup ("tables") with
    | some (.arr xs) =>
      xs.filterMap (fun v => match v with | .str s => some s | _ => none)
    | _ => []
  | _ => []

/-- A Postgres system-schema qualified name as rendered by
PostgresConnector.Scan: the quoted schema is pg_catalog or
information_schema. -/
def pgSystemSchemaName (n : String) : Bool :=
  n.toList.take 13 == ("\x22pg_catalog\x22.").toList ||
    n.toList.take 21 == ("\x22information_schema\x22.").toList

theorem execsReadOnlyAux_execs_append
    (stack : List Bool) (h : stack.headD false = true)
    (l rest : List DBEvent) (hl : ∀ e ∈ l, isExecEvent e = true) :
    execsReadOnlyAux stack (l ++ rest) = execsReadOnlyAux stack rest := by
  induction l with
  | nil => rfl
  | cons e l ih =>
    cases e with
    | exec s a =>
      simp only [List.cons_append, execsReadOnlyAux, h, Bool.true_and]
      exact ih (fun e he => hl e (List.mem_cons_of_mem _ he))
    | beginTx ro =>
      exact absurd (hl _ (List.mem_cons_self _ _)) (by simp [isExecEvent])
    | commit =>
      exact absurd (hl _ (List.mem_cons_self _ _)) (by simp [isExecEvent])

theorem pgScan_readonly (st : PgState) (tl : List String) :
    execsInReadOnlyTx (pgScan st tl).2 = true := by
  simp only [pgScan, execsInReadOnlyTx]
  rw [List.append_assoc]
  simp only [List.cons_append, List.nil_append, List.append_eq, execsReadOnlyAux,
    List.headD, Bool.true_and]
  rw [execsReadOnlyAux_execs_append [true] rfl _ _ ?_]
  · rfl
  · intro e he
    obtain ⟨t, _, rfl⟩ := List.mem_map.1 he
    rfl

theorem myScan_readonly (st : MyState) (tl : List String) :
    execsInReadOnlyTx (myScan st tl).2 = true := by
  simp only [myScan, execsInReadOnlyTx]
  rw [List.append_assoc]
  simp only [List.cons_append, List.nil_append, List.append_eq, execsReadOnlyAux,
    List.headD, Bool.true_and]
  rw [execsReadOnlyAux_execs_append [true] rfl _ _ ?_]
  · rfl
  · intro e he
    obtain ⟨t, _, rfl⟩ := List.mem_map.1 he
    rfl

theorem sqScan_readonly (st : SqState) (tl : List String) :
    execsInReadOnlyTx (sqScan st tl).2 = true := by
  simp only [sqScan, execsInReadOnlyTx]
  rw [List.append_assoc]
  simp only [List.cons_append, List.nil_append, List.append_eq, execsReadOnlyAux,
    List.headD, Bool.true_and]
  rw [execsReadOnlyAux_execs_append [true] rfl _ _ ?_]
  · rfl
  · intro e he
    obtain ⟨t, _, rfl⟩ := List.mem_map.1 he
    rfl

theorem pgDescribeTable_readonly (st : PgState) (t : String) :
    execsInReadOnlyTx (pgDescribeTable st t).2 = true := by
  rcases hf : pgFindTable st (parseTableName t).1 (parseTableName t).2 with _ | info <;>
    simp only [pgDescribeTable, hf] <;> rfl

theorem myDescribeTable_readonly (st : MyState) (t : String) :
    execsInReadOnlyTx (myDescribeTable st t).2 = true := by
  rcases hf : myFindTable st t with _ | info <;>
    simp only [myDescribeTable, hf] <;> rfl

theorem sqDescribeTable_readonly (st : SqState) (t : String) :
    execsInReadOnlyTx (sqDescribeTable st t).2 = true := by
  rcases hf : sqFindTable st t with _ | entry
  · simp only [sqDescribeTable, hf]
    rfl
  · simp only [sqDescribeTable, hf, sqSample, sqQuery, execsInReadOnlyTx,
      List.append_assoc, List.cons_append, List.nil_append, List.append_eq,
      execsReadOnlyAux, List.headD, Bool.true_and, List.tail_cons]
    rw [execsReadOnlyAux_execs_append [true] rfl _ _ ?_]
    · rfl
    · intro e he
      obtain ⟨i, _, rfl⟩ := List.mem_map.1 he
      rfl

/-- C1: every backend read performed by any contract operation (Scan,
Query, Sample, DescribeTable) of every dialect connector executes inside
a transaction begun with the driver-level read-only flag set, and Query
passes the caller-supplied SQL string to the backend verbatim, with no
bound arguments and no parsing, rewriting or whitelisting before
execution. -/
theorem c1_reads_read_only_and_query_verbatim
    (pst : PgState) (mst : MyState) (sst : SqState)
    (sql table : String) (limit : Int) (tl : List String) :
    (execsInReadOnlyTx (pgScan pst tl).2 = true ∧
     execsInReadOnlyTx (pgQuery pst sql).2 = true ∧
     execsInReadOnlyTx (pgSample pst table limit).2 = true ∧
     execsInReadOnlyTx (pgDescribeTable pst table).2 = true) ∧
    (execsInReadOnlyTx (myScan mst tl).2 = true ∧
     execsInReadOnlyTx (myQuery mst sql).2 = true ∧
     execsInReadOnlyTx (mySample mst table limit).2 = true ∧
     execsInReadOnlyTx (myDescribeTable mst table).2 = true) ∧
    (execsInReadOnlyTx (sqScan sst tl).2 = true ∧
     execsInReadOnlyTx (sqQuery sst sql).2 = true ∧
     execsInReadOnlyTx (sqSample sst table limit).2 = true ∧
     execsInReadOnlyTx (sqDescribeTable sst table).2 = true) ∧
    ((pgQuery pst sql).2 = [DBEvent.beginTx true, DBEvent.exec sql [], DBEvent.commit] ∧
     (myQuery mst sql).2 = [DBEvent.beginTx true, DBEvent.exec sql [], DBEvent.commit] ∧
     (sqQuery sst sql).2 = [DBEvent.beginTx true, DBEvent.exec sql [], DBEvent.commit]) := by
  refine ⟨⟨pgScan_readonly pst tl, rfl, rfl, pgDescribeTable_readonly pst table⟩,
    ⟨myScan_readonly mst tl, rfl, rfl, myDescribeTable_readonly mst table⟩,
    ⟨sqScan_readonly sst tl, rfl, rfl, sqDescribeTable_readonly sst table⟩,
    rfl, rfl, rfl⟩

theorem sqlitePrefixed_implies_internal (n : String)
    (h : sqliteUnderscorePrefixed n = true) : sqliteInternalName n = true := by
  unfold sqliteUnderscorePrefixed at h
  rw [beq_iff_eq] at h
  have hlen : 7 ≤ n.toList.length := by
    have hl := congrArg List.length h
    have h7 : ("sqlite_").toList.length = 7 := rfl
    simp only [List.length_take, h7] at hl
    omega
  have ht6 : n.toList.take 6 = ("sqlite").toList := by
    have h66 : (n.toList.take 7).take 6 = n.toList.take 6 := by
      rw [List.take_take]
      norm_num
    rw [← h66, h]
    rfl
  unfold sqliteInternalName
  rw [ht6, decide_eq_true hlen, Bool.true_and]
  decide

/-- C2 (code evaluated at the failing inputs): the factory dispatch maps
the postgres and postgresql tags to the Postgres connector constructor,
but the mysql and sqlite tags fail with the unsupported-dialect error
carrying the tag, because their dispatch cases are commented out in
connector.go even though full MySQL and SQLite connectors exist and the
README documents both as supported; unknown tags fail the same way. -/
theorem c2_factory_dispatch_evaluated :
    newConnectorDispatch ("postgres") = .ok ConnectorKind.postgres ∧
    newConnectorDispatch ("postgresql") = .ok ConnectorKind.postgres ∧
    newConnectorDispatch ("mysql") = .error (.unsupportedDialect ("mysql")) ∧
    newConnectorDispatch ("sqlite") = .error (.unsupportedDialect ("sqlite")) ∧
    newConnectorDispatch ("oracle") = .error (.unsupportedDialect ("oracle")) := by
  refine ⟨rfl, rfl, rfl, rfl, rfl⟩

/-- C5 (code evaluated at the failing input): handlers.SampleHandler
always invokes connector.Sample with the literal limit 10 and never
reads the request's limit argument, so a request carrying table users
and limit 3 still leads to Sample(users, 10); the limit is 10 for every
request shape, not only when the argument is omitted or non-positive. -/
theorem c5_sample_handler_ignores_limit :
    sampleHandlerCall [(("table"), JVal.str ("users")), (("limit"), JVal.num 3)] =
      .ok (("users"), 10) ∧
    sampleHandlerCall [(("table"), JVal.str ("users")), (("limit"), JVal.num 50)] =
      .ok (("users"), 10) ∧
    sampleHandlerCall [(("table"), JVal.str ("users"))] = .ok (("users"), 10) ∧
    sampleHandlerCall [(("limit"), JVal.num 3)] =
      .error ("required argument table not found") := by
  refine ⟨rfl, rfl, rfl, rfl⟩

/-- C6: for the Postgres and SQLite connectors, Sample(t, n) returns
exactly the result (value and trace) of Query on the string SELECT *
FROM t LIMIT m where m is n when n is positive and 10 otherwise; in
particular Sample(t, 0) and Sample(t, -5) behave identically to
Sample(t, 10). -/
theorem c6_sample_refines_query (pst : PgState) (sst : SqState) (t : String) (n : Int) :
    pgSample pst t n = pgQuery pst (sampleSQL t (if 0 < n then n else 10)) ∧
    sqSample sst t n = sqQuery sst (sampleSQL t (if 0 < n then n else 10)) ∧
    pgSample pst t 0 = pgSample pst t 10 ∧
    pgSample pst t (-5) = pgSample pst t 10 ∧
    sqSample sst t 0 = sqSample sst t 10 ∧
    sqSample sst t (-5) = sqSample sst t 10 := by
  have hif : (if n ≤ 0 then (10 : Int) else n) = (if 0 < n then n else 10) := by
    rcases le_or_lt n 0 with h | h
    · rw [if_pos h, if_neg (not_lt.2 h)]
    · rw [if_neg (not_le.2 h), if_pos h]
  refine ⟨?_, ?_, rfl, rfl, rfl, rfl⟩
  · simp only [pgSample, hif]
  · simp only [sqSample, hif]

/-- C7: DescribeTable on a table name absent from the backend catalog
fails with the not-found error; the error result models the Go return of
(nil, err), so no partially populated description is produced on this
path.  Stated for all three dialect connectors; for Postgres absence is
judged at the schema-qualified name DescribeTable resolves via
parseTableName. -/
theorem c7_describe_missing_table
    (pst : PgState) (sst : SqState) (mst : MyState) (t : String) :
    (pgFindTable pst (parseTableName t).1 (parseTableName t).2 = none →
      (pgDescribeTable pst t).1 = .error (.notFound t)) ∧
    (sqFindTable sst t = none →
      (sqDescribeTable sst t).1 = .error (.notFound t)) ∧
    (myFindTable mst t = none →
      (myDescribeTable mst t).1 = .error (.notFound t)) := by
  refine ⟨fun h => ?_, fun h => ?_, fun h => ?_⟩
  · simp only [pgDescribeTable, h]
  · simp only [sqDescribeTable, h]
  · simp only [myDescribeTable, h]

theorem c7_describe_missing_table_witness :
    (pgDescribeTable { tables := [], rawResults := [] } ("users")).1 =
      .error (.notFound ("users")) ∧
    (sqDescribeTable { master := [], rawResults := [] } ("users")).1 =
      .error (.notFound ("users")) ∧
    (myDescribeTable { currentDb := "app", tables := [], rawResults := [] } ("users")).1 =
      .error (.notFound ("users")) :=
  ⟨(c7_describe_missing_table { tables := [], rawResults := [] }
      { master := [], rawResults := [] }
      { currentDb := "app", tables := [], rawResults := [] } ("users")).1 rfl,
   (c7_describe_missing_table { tables := [], rawResults := [] }
      { master := [], rawResults := [] }
      { currentDb := "app", tables := [], rawResults := [] } ("users")).2.1 rfl,
   (c7_describe_missing_table { tables := [], rawResults := [] }
      { master := [], rawResults := [] }
      { currentDb := "app", tables := [], rawResults := [] } ("users")).2.2 rfl⟩

theorem pgSample5_fail (pst : PgState) (t : String)
    (h : pst.rawResults.lookup (sampleSQL t 5) = none) :
    (pgSample pst t 5).1 = .error (.queryFailed (sampleSQL t 5)) := by
  simp only [pgSample, pgQuery, pgRawEval]
  rw [if_neg (by norm_num : ¬ (5 : Int) ≤ 0), h]

theorem mySample5_fail (mst : MyState) (t : String)
    (h : mst.rawResults.lookup (mySampleSQL t 5) = none) :
    (mySample mst t 5).1 = .error (.queryFailed (mySampleSQL t 5)) := by
  simp only [mySample, myQuery, myRawEval]
  rw [if_neg (by norm_num : ¬ (5 : Int) ≤ 0), h]

/-- C8: on an existing table whose 5-row sample fetch fails at the
backend, DescribeTable still succeeds, returning a description whose row
count is the catalog's count and whose sample data is absent, instead of
propagating the sampling error.  Stated for the cited Postgres and MySQL
connectors; a sample fetch fails exactly when the raw sample SQL has no
backend result. -/
theorem c8_sample_failure_degrades
    (pst : PgState) (mst : MyState) (t : String)
    (pinfo : PgTableInfo) (minfo : MyTableInfo) :
    (pgFindTable pst (parseTableName t).1 (parseTableName t).2 = some pinfo →
     pst.rawResults.lookup (sampleSQL t 5) = none →
     (pgDescribeTable pst t).1 = .ok
       { name := t, columns := pinfo.columns, rowCount := pinfo.rowCount,
         sampleData := none, primaryKeys := pinfo.primaryKeys,
         indexes := pinfo.indexes }) ∧
    (myFindTable mst t = some minfo →
     mst.rawResults.lookup (mySampleSQL t 5) = none →
     (myDescribeTable mst t).1 = .ok
       { name := t, columns := minfo.columns, rowCount := minfo.rowCount,
         sampleData := none, primaryKeys := minfo.primaryKeys,
         indexes := minfo.indexes }) := by
  refine ⟨fun hf hs => ?_, fun hf hs => ?_⟩
  · simp only [pgDescribeTable, hf, pgSample5_fail pst t hs]
  · simp only [myDescribeTable, hf, mySample5_fail mst t hs]

theorem c8_sample_failure_degrades_witness :
    (pgDescribeTable
      { tables := [{ schema := "public", name := "users",
                     columns := [{ name := "id", type := "integer", nullable := false }],
                     rowCount := 3, primaryKeys := ["id"], indexes := [] }],
        rawResults := [] } ("users")).1 = .ok
      { name := "users",
        columns := [{ name := "id", type := "integer", nullable := false }],
        rowCount := 3, sampleData := none, primaryKeys := ["id"], indexes := [] } ∧
    (myDescribeTable
      { currentDb := "app",
        tables := [{ schema := "app", name := "users",
                     columns := [{ name := "id", type := "int", nullable := false }],
                     rowCount := 7, primaryKeys := ["id"], indexes := [] }],
        rawResults := [] } ("users")).1 = .ok
      { name := "users",
        columns := [{ name := "id", type := "int", nullable := false }],
        rowCount := 7, sampleData := none, primaryKeys := ["id"], indexes := [] } :=
  ⟨(c8_sample_failure_degrades
      { tables := [{ schema := "public", name := "users",
                     columns := [{ name := "id", type := "integer", nullable := false }],
                     rowCount := 3, primaryKeys := ["id"], indexes := [] }],
        rawResults := [] }
      { currentDb := "app",
        tables := [{ schema := "app", name := "users",
                     columns := [{ name := "id", type := "int", nullable := false }],
                     rowCount := 7, primaryKeys := ["id"], indexes := [] }],
        rawResults := [] } ("users")
      { schema := "public", name := "users",
        columns := [{ name := "id", type := "integer", nullable := false }],
        rowCount := 3, primaryKeys := ["id"], indexes := [] }
      { schema := "app", name := "users",
        columns := [{ name := "id", type := "int", nullable := false }],
        rowCount := 7, primaryKeys := ["id"], indexes := [] }).1 rfl rfl,
   (c8_sample_failure_degrades
      { tables := [{ schema := "public", name := "users",
                     columns := [{ name := "id", type := "integer", nullable := false }],
                     rowCount := 3, primaryKeys := ["id"], indexes := [] }],
        rawResults := [] }
      { currentDb := "app",
        tables := [{ schema := "app", name := "users",
                     columns := [{ name := "id", type := "int", nullable := false }],
                     rowCount := 7, primaryKeys := ["id"], indexes := [] }],
        rawResults := [] } ("users")
      { schema := "public", name := "users",
        columns := [{ name := "id", type := "integer", nullable := false }],
        rowCount := 3, primaryKeys := ["id"], indexes := [] }
      { schema := "app", name := "users",
        columns := [{ name := "id", type := "int", nullable := false }],
        rowCount := 7, primaryKeys := ["id"], indexes := [] }).2 rfl rfl⟩

/-- C9: the scan_database handler builds the table filter only when the
request's tables argument decodes to an array, silently skipping any
non-string element of that array; for every other argument shape,
including the comma-separated string the tool's own schema documents,
the filter stays empty, so Scan runs its enumerate-all branch. -/
theorem c9_scan_handler_filter
    (pst : PgState) (fields : List (String × JVal)) (xs : List JVal) (v : JVal) :
    (fields.lookup ("tables") = some (JVal.arr xs) →
      scanHandlerTables (JVal.obj fields) =
        xs.filterMap (fun w => match w with | JVal.str s => some s | _ => none)) ∧
    (fields.lookup ("tables") = some v → (∀ ys, v ≠ JVal.arr ys) →
      scanHandlerTables (JVal.obj fields) = []) ∧
    (fields.lookup ("tables") = none → scanHandlerTables (JVal.obj fields) = []) ∧
    (scanHandlerTables (JVal.obj [(("tables"), JVal.str ("users,orders"))]) = []) ∧
    (pgScan pst (scanHandlerTables (JVal.obj [(("tables"), JVal.str ("users,orders"))])) =
      pgScan pst []) := by
  refine ⟨fun h => ?_, fun h hne => ?_, fun h => ?_, rfl, rfl⟩
  · simp only [scanHandlerTables, h]
  · simp only [scanHandlerTables, h]
    cases v with
    | arr ys => exact absurd rfl (hne ys)
    | null => rfl
    | bool b => rfl
    | num n => rfl
    | str s => rfl
    | obj gs => rfl
  · simp only [scanHandlerTables, h]

theorem c9_scan_handler_filter_witness :
    scanHandlerTables (JVal.obj [(("tables"),
        JVal.arr [JVal.str ("users"), JVal.num 1, JVal.str ("orders")])]) =
      ["users", "orders"] ∧
    scanHandlerTables (JVal.obj [(("tables"), JVal.num 3)]) = [] ∧
    scanHandlerTables (JVal.obj [(("other"), JVal.num 3)]) = [] :=
  ⟨(c9_scan_handler_filter { tables := [], rawResults := [] }
      [(("tables"), JVal.arr [JVal.str ("users"), JVal.num 1, JVal.str ("orders")])]
      [JVal.str ("users"), JVal.num 1, JVal.str ("orders")] JVal.null).1 rfl,
   (c9_scan_handler_filter { tables := [], rawResults := [] }
      [(("tables"), JVal.num 3)] [] (JVal.num 3)).2.1 rfl
      (fun _ h => JVal.noConfusion h),
   (c9_scan_handler_filter { tables := [], rawResults := [] }
      [(("other"), JVal.num 3)] [] JVal.null).2.2.1 rfl⟩

/-- C10: the Postgres DescribeTable accepts both a quoted
schema-qualified name and a bare name: when the name splits on dots into
exactly two parts it strips surrounding double quotes from each part and
uses them as schema and table, when it contains no dot (splitDot yields
the name as the only part) it resolves against the public schema after
stripping surrounding quotes, and DescribeTable issues its existence
check for exactly the pair parseTableName resolves. -/
theorem c10_describe_name_resolution (pst : PgState) (t s r : String) :
    (splitDot t = [s, r] → parseTableName t = (trimQuotes s, trimQuotes r)) ∧
    (splitDot t = [t] → parseTableName t = ("public", trimQuotes t)) ∧
    ((pgDescribeTable pst t).2.head? = some (DBEvent.beginTx true)) ∧
    (((pgDescribeTable pst t).2.drop 1).head? =
      some (DBEvent.exec pgExistsSQL [(parseTableName t).1, (parseTableName t).2])) := by
  refine ⟨fun h => ?_, fun h => ?_, ?_, ?_⟩
  · simp only [parseTableName, h]
  · simp only [parseTableName, h]
  · rcases hf : pgFindTable pst (parseTableName t).1 (parseTableName t).2 with _ | info <;>
      simp only [pgDescribeTable, hf] <;> rfl
  · rcases hf : pgFindTable pst (parseTableName t).1 (parseTableName t).2 with _ | info <;>
      simp only [pgDescribeTable, hf] <;> rfl

theorem c10_describe_name_resolution_witness :
    parseTableName ("\x22sch\x22.\x22tbl\x22") = (("sch"), ("tbl")) ∧
    parseTableName ("users") = (("public"), ("users")) :=
  ⟨(c10_describe_name_resolution { tables := [], rawResults := [] }
      ("\x22sch\x22.\x22tbl\x22") ("\x22sch\x22") ("\x22tbl\x22")).1 rfl,
   (c10_describe_name_resolution { tables := [], rawResults := [] }
      ("users") ("") ("")).2.1 rfl⟩

/-- C3 is false as stated: on a state with an existing table, a
successful DescribeTable call opens two transactions, not one — the
5-row sample is delegated to Sample, which delegates to Query, which
begins its own transaction — so not all backend reads happen within the
single read-only transaction opened at the start of the call. -/
theorem c3_counterexample :
    (pgDescribeTable
      { tables := [{ schema := "public", name := "users",
                     columns := [{ name := "id", type := "integer", nullable := false }],
                     rowCount := 3, primaryKeys := ["id"], indexes := [] }],
        rawResults := [] } ("users")).1 = .ok
      { name := "users",
        columns := [{ name := "id", type := "integer", nullable := false }],
        rowCount := 3, sampleData := none, primaryKeys := ["id"], indexes := [] } ∧
    singleTxTrace (pgDescribeTable
      { tables := [{ schema := "public", name := "users",
                     columns := [{ name := "id", type := "integer", nullable := false }],
                     rowCount := 3, primaryKeys := ["id"], indexes := [] }],
        rawResults := [] } ("users")).2 = false ∧
    beginTxCount (pgDescribeTable
      { tables := [{ schema := "public", name := "users",
                     columns := [{ name := "id", type := "integer", nullable := false }],
                     rowCount := 3, primaryKeys := ["id"], indexes := [] }],
        rawResults := [] } ("users")).2 = 2 := by
  refine ⟨rfl, rfl, rfl⟩

/-- C3 amended: for every existing table, DescribeTable performs its
backend reads in the order existence check, column loading, row count,
5-row sample, primary-key discovery, index discovery; the existence
check, columns, row count, primary keys and indexes run in the single
read-only transaction opened at the start of the call, while the sample
runs in its own separate read-only transaction opened and committed
mid-call.  Stated for the cited Postgres and SQLite connectors via their
full driver-event traces. -/
theorem c3_amended_describe_trace (pst : PgState) (sst : SqState) (t : String)
    (pinfo : PgTableInfo) (entry : SqTableEntry) :
    (pgFindTable pst (parseTableName t).1 (parseTableName t).2 = some pinfo →
      (pgDescribeTable pst t).2 =
        [DBEvent.beginTx true,
         DBEvent.exec pgExistsSQL [(parseTableName t).1, (parseTableName t).2],
         DBEvent.exec pgColumnsSQL [(parseTableName t).2, (parseTableName t).1],
         DBEvent.exec (pgCountSQL (parseTableName t).1 (parseTableName t).2) []] ++
        ([DBEvent.beginTx true, DBEvent.exec (sampleSQL t 5) [], DBEvent.commit] ++
         [DBEvent.exec pgPkSQL [(parseTableName t).1, (parseTableName t).2],
          DBEvent.exec pgIdxSQL [(parseTableName t).1, (parseTableName t).2],
          DBEvent.commit])) ∧
    (sqFindTable sst t = some entry →
      (sqDescribeTable sst t).2 =
        [DBEvent.beginTx true, DBEvent.exec sqExistsSQL [t],
         DBEvent.exec (sqTableInfoSQL t) [], DBEvent.exec (sqCountSQL t) []] ++
        ([DBEvent.beginTx true, DBEvent.exec (sampleSQL t 5) [], DBEvent.commit] ++
         ([DBEvent.exec sqPkSQL [t], DBEvent.exec sqIdxListSQL [t]] ++
          ((entry.indexes.filter (fun i => i.origin != "pk")).map
            (fun i => DBEvent.exec sqIdxInfoSQL [i.name]) ++ [DBEvent.commit])))) := by
  refine ⟨fun h => ?_, fun h => ?_⟩
  · simp only [pgDescribeTable, h, pgSample, pgQuery]
    rw [if_neg (by norm_num : ¬ (5 : Int) ≤ 0)]
    simp [List.append_assoc]
  · simp only [sqDescribeTable, h, sqSample, sqQuery]
    rw [if_neg (by norm_num : ¬ (5 : Int) ≤ 0)]
    simp [List.append_assoc]

theorem c3_amended_describe_trace_witness :
    (pgDescribeTable
      { tables := [{ schema := "public", name := "users",
                     columns := [{ name := "id", type := "integer", nullable := false }],
                     rowCount := 3, primaryKeys := ["id"], indexes := [] }],
        rawResults := [] } ("users")).2 =
      [DBEvent.beginTx true,
       DBEvent.exec pgExistsSQL [("public"), ("users")],
       DBEvent.exec pgColumnsSQL [("users"), ("public")],
       DBEvent.exec (pgCountSQL ("public") ("users")) []] ++
      ([DBEvent.beginTx true, DBEvent.exec (sampleSQL ("users") 5) [], DBEvent.commit] ++
       [DBEvent.exec pgPkSQL [("public"), ("users")],
        DBEvent.exec pgIdxSQL [("public"), ("users")],
        DBEvent.commit]) ∧
    (sqDescribeTable
      { master := [{ name := "users", type := "table",
                     columns := [{ name := "id", type := "INTEGER", notNull := 1, pk := 1 }],
                     rowCount := 3, indexes := [] }],
        rawResults := [] } ("users")).2 =
      [DBEvent.beginTx true, DBEvent.exec sqExistsSQL [("users")],
       DBEvent.exec (sqTableInfoSQL ("users")) [], DBEvent.exec (sqCountSQL ("users")) []] ++
      ([DBEvent.beginTx true, DBEvent.exec (sampleSQL ("users") 5) [], DBEvent.commit] ++
       ([DBEvent.exec sqPkSQL [("users")], DBEvent.exec sqIdxListSQL [("users")]] ++
        [DBEvent.commit])) :=
  ⟨(c3_amended_describe_trace
      { tables := [{ schema := "public", name := "users",
                     columns := [{ name := "id", type := "integer", nullable := false }],
                     rowCount := 3, primaryKeys := ["id"], indexes := [] }],
        rawResults := [] }
      { master := [{ name := "users", type := "table",
                     columns := [{ name := "id", type := "INTEGER", notNull := 1, pk := 1 }],
                     rowCount := 3, indexes := [] }],
        rawResults := [] } ("users")
      { schema := "public", name := "users",
        columns := [{ name := "id", type := "integer", nullable := false }],
        rowCount := 3, primaryKeys := ["id"], indexes := [] }
      { name := "users", type := "table",
        columns := [{ name := "id", type := "INTEGER", notNull := 1, pk := 1 }],
        rowCount := 3, indexes := [] }).1 rfl,
   (c3_amended_describe_trace
      { tables := [{ schema := "public", name := "users",
                     columns := [{ name := "id", type := "integer", nullable := false }],
                     rowCount := 3, primaryKeys := ["id"], indexes := [] }],
        rawResults := [] }
      { master := [{ name := "users", type := "table",
                     columns := [{ name := "id", type := "INTEGER", notNull := 1, pk := 1 }],
                     rowCount := 3, indexes := [] }],
        rawResults := [] } ("users")
      { schema := "public", name := "users",
        columns := [{ name := "id", type := "integer", nullable := false }],
        rowCount := 3, primaryKeys := ["id"], indexes := [] }
      { name := "users", type := "table",
        columns := [{ name := "id", type := "INTEGER", notNull := 1, pk := 1 }],
        rowCount := 3, indexes := [] }).2 rfl⟩

/-- C4 is false as stated: the Postgres Scan applies no system-schema
exclusion — its enumeration filters information_schema.tables only by
table_type — and in Postgres that catalog view exposes the base tables
of pg_catalog and information_schema, so on a state where the catalog
lists a pg_catalog base table, Scan with an empty filter returns it. -/
theorem c4_counterexample :
    (pgScan
      { tables := [{ schema := "pg_catalog", name := "pg_statistic",
                     columns := [], rowCount := 0, primaryKeys := [], indexes := [] }],
        rawResults := [] } []).1 =
      .ok [{ name := pgQualifiedName ("pg_catalog") ("pg_statistic"), columns := [] }] ∧
    pgSystemSchemaName (pgQualifiedName ("pg_catalog") ("pg_statistic")) = true := by
  refine ⟨rfl, by decide⟩

/-- C4 amended: Scan with an empty filter excludes the backend's
internal tables for SQLite (no returned name carries the sqlite_
prefix, enforced by the NOT LIKE filter) and for MySQL (only tables of
the current session database are enumerated), but the Postgres Scan
performs no system-schema exclusion: it returns every base table the
catalog view exposes, system schemas included. -/
theorem c4_amended_scan_system_tables
    (sst : SqState) (mst : MyState) (pst : PgState) (l : List Table) (tb : Table) :
    ((sqScan sst []).1 = .ok l → tb ∈ l → sqliteUnderscorePrefixed tb.name = false) ∧
    ((myScan mst []).1 = .ok l → tb ∈ l →
      tb.name ∈ (mst.tables.filter (fun e => e.schema == mst.currentDb)).map
        (fun e => e.name)) ∧
    ((pgScan pst []).1 = .ok (pst.tables.map
      (fun e => { name := pgQualifiedName e.schema e.name, columns := e.columns }))) := by
  refine ⟨fun hl htb => ?_, fun hl htb => ?_, rfl⟩
  · simp only [sqScan, sqScanSelected, List.length_nil, gt_iff_lt, lt_self_iff_false,
      if_false, Except.ok.injEq] at hl
    subst hl
    obtain ⟨e, he, rfl⟩ := List.mem_map.1 htb
    have hpred := (List.mem_filter.1 he).2
    rw [Bool.and_eq_true, Bool.not_eq_true'] at hpred
    cases hp : sqliteUnderscorePrefixed e.name with
    | false => rfl
    | true => exact absurd (sqlitePrefixed_implies_internal _ hp) (by simp [hpred.2])
  · simp only [myScan, myScanSelected, List.length_nil, gt_iff_lt, lt_self_iff_false,
      if_false, Except.ok.injEq] at hl
    subst hl
    obtain ⟨e, he, rfl⟩ := List.mem_map.1 htb
    exact List.mem_map.2 ⟨e, he, rfl⟩

theorem c4_amended_scan_system_tables_witness :
    sqliteUnderscorePrefixed ("users") = false ∧
    ("users") ∈ (([{ schema := "app", name := "users", columns := [],
                     rowCount := 0, primaryKeys := [], indexes := [] }] :
        List MyTableInfo).filter (fun e => e.schema == ("app"))).map (fun e => e.name) :=
  ⟨(c4_amended_scan_system_tables
      { master := [{ name := "users", type := "table", columns := [],
                     rowCount := 0, indexes := [] }], rawResults := [] }
      { currentDb := "app",
        tables := [{ schema := "app", name := "users", columns := [],
                     rowCount := 0, primaryKeys := [], indexes := [] }],
        rawResults := [] }
      { tables := [], rawResults := [] }
      [{ name := "users", columns := [] }]
      { name := "users", columns := [] }).1 rfl (by decide),
   (c4_amended_scan_system_tables
      { master := [{ name := "users", type := "table", columns := [],
                     rowCount := 0, indexes := [] }], rawResults := [] }
      { currentDb := "app",
        tables := [{ schema := "app", name := "users", columns := [],
                     rowCount := 0, primaryKeys := [], indexes := [] }],
        rawResults := [] }
      { tables := [], rawResults := [] }
      [{ name := "users", columns := [] }]
      { name := "users", columns := [] }).2.1 rfl (by decide)⟩
